import Mathlib

/-!
Shallow embedding of the Clinical Rule Validation Engine
(`agents/clinical_rules.py`): the vitals/labs extractor, the per-condition
validators, the keyword dispatch, and the validation batch runner.
Python floats are modelled as exact rationals (`ℚ`); Python dictionaries
with a fixed key vocabulary are modelled as structures of `Option` fields
(`none` = key absent); dictionary subscripting that can raise `KeyError`
is modelled with `Except String`.
-/

set_option autoImplicit false

namespace ClinicalRules

/-- The empty string default used by `dict.get(key, ...)`. -/
def emptyStr : String := ""

/-! ### String utilities (Python `str.lower`, `in`, `re` fragments) -/

/-- ASCII lowering of a string, modelling Python `str.lower()` on the
inputs this engine sees. -/
def strLower (s : String) : String := ⟨s.data.map Char.toLower⟩

/-- `containsSub hay needle = true` iff `needle` occurs as a contiguous
substring of `hay` — Python's `needle in hay`. -/
def containsSub : List Char → List Char → Bool
  | [], needle => needle.isEmpty
  | c :: t, needle => needle.isPrefixOf (c :: t) || containsSub t needle

/-- Python `t in s` on strings. -/
def strContainsB (s t : String) : Bool := containsSub s.data t.data

/-- Characters matched by the regex class `\s` (ASCII range). -/
def isSpaceC (c : Char) : Bool :=
  c == ' ' || c == '\t' || c == '\n' || c == '\r' || c.toNat == 11 || c.toNat == 12

/-- Case-insensitive match of a literal keyword at the head of the text,
returning the remaining text (regex literal under `re.IGNORECASE`). -/
def matchLit : List Char → List Char → Option (List Char)
  | [], rest => some rest
  | _ :: _, [] => none
  | k :: ks, c :: cs => if c.toLower = k.toLower then matchLit ks cs else none

/-- The regex fragment `:?\s*`: an optional colon then any whitespace. -/
def skipColonSpaces (cs : List Char) : List Char :=
  let cs1 := match cs with
    | ':' :: rest => rest
    | _ => cs
  cs1.dropWhile isSpaceC

/-- Maximal run of leading decimal digits, with the rest of the text. -/
def takeDigits (cs : List Char) : List Char × List Char :=
  (cs.takeWhile Char.isDigit, cs.dropWhile Char.isDigit)

/-- Value of a digit string, as for Python `float()` of an integer part. -/
def digitsToNat (ds : List Char) : Nat :=
  ds.foldl (fun a c => 10 * a + (c.toNat - 48)) 0

/-- The regex group `(\d+)`: one or more digits, valued as a number. -/
def matchInt (cs : List Char) : Option (ℚ × List Char) :=
  let p := takeDigits cs
  if p.1.isEmpty then none else some ((digitsToNat p.1 : ℚ), p.2)

/-- The regex group `(\d+\.?\d*)`: digits with an optional decimal part. -/
def matchDec (cs : List Char) : Option (ℚ × List Char) :=
  let p := takeDigits cs
  if p.1.isEmpty then none
  else
    match p.2 with
    | '.' :: rest2 =>
      let q := takeDigits rest2
      some ((digitsToNat p.1 : ℚ) + (digitsToNat q.1 : ℚ) / (10 : ℚ) ^ q.1.length, q.2)
    | _ => some ((digitsToNat p.1 : ℚ), p.2)

/-- Try to match `kw:?\s*(num)` at the current position; `dec` selects
between the `(\d+\.?\d*)` and `(\d+)` capture groups. -/
def matchKwNum (kw : List Char) (dec : Bool) (cs : List Char) : Option ℚ :=
  match matchLit kw cs with
  | none => none
  | some r =>
    if dec then (matchDec (skipColonSpaces r)).map Prod.fst
    else (matchInt (skipColonSpaces r)).map Prod.fst

/-- Try to match `BP:?\s*(\d+)/(\d+)` at the current position. -/
def matchBPAt (cs : List Char) : Option (ℚ × ℚ) :=
  match matchLit ['B', 'P'] cs with
  | none => none
  | some r =>
    match matchInt (skipColonSpaces r) with
    | none => none
    | some sv =>
      match sv.2 with
      | '/' :: r3 =>
        match matchInt r3 with
        | none => none
        | some dv => some (sv.1, dv.1)
      | _ => none

/-- Leftmost-match search: try the matcher at every start position from
left to right, as `re.search` does. -/
def searchAux {α : Type} (f : List Char → Option α) : List Char → Option α
  | [] => f []
  | c :: cs =>
    match f (c :: cs) with
    | some v => some v
    | none => searchAux f cs

/-! ### Measurement maps and the text parsers -/

/-- Vitals parsed out of the free-text vitals string (`respiratory_rate`
has no text pattern and is never produced here). -/
structure ParsedVitals where
  systolic_bp : Option ℚ
  diastolic_bp : Option ℚ
  heart_rate : Option ℚ
  temperature : Option ℚ
  spo2 : Option ℚ
deriving DecidableEq

/-- `_parse_vitals_from_text`: regex scan of the vitals free text. -/
def parse_vitals_from_text (s : String) : ParsedVitals :=
  let cs := s.data
  let bp := searchAux matchBPAt cs
  { systolic_bp := bp.map Prod.fst
    diastolic_bp := bp.map Prod.snd
    heart_rate := searchAux (matchKwNum ['H', 'R'] false) cs
    temperature := searchAux (matchKwNum ['T', 'e', 'm', 'p'] true) cs
    spo2 := searchAux (matchKwNum ['S', 'p', 'O', '2'] false) cs }

/-- The labs measurement map (fixed vocabulary, absent = `none`). -/
structure LabsMap where
  glucose : Option ℚ
  hemoglobin : Option ℚ
  creatinine : Option ℚ
  hba1c : Option ℚ
deriving DecidableEq

/-- `_parse_labs_from_text`: regex scan of the labs free text. -/
def parse_labs_from_text (s : String) : LabsMap :=
  let cs := s.data
  { glucose := searchAux (matchKwNum ['G', 'l', 'u', 'c', 'o', 's', 'e'] true) cs
    hemoglobin := searchAux (matchKwNum ['H', 'e', 'm', 'o', 'g', 'l', 'o', 'b', 'i', 'n'] true) cs
    creatinine := searchAux (matchKwNum ['C', 'r', 'e', 'a', 't', 'i', 'n', 'i', 'n', 'e'] true) cs
    hba1c := searchAux (matchKwNum ['H', 'b', 'A', '1', 'c'] true) cs }

/-! ### Patient data and the vitals/labs extractor -/

/-- Structured vitals on the `patient` object (`patient.get(key)` yields
`none` for a missing attribute). -/
structure Patient where
  systolic_bp : Option ℚ
  diastolic_bp : Option ℚ
  heart_rate : Option ℚ
  resp_rate : Option ℚ
  temperature : Option ℚ
  spo2 : Option ℚ
deriving DecidableEq

/-- The patient-record mapping consumed by the engine: `patient` object,
free-text `vitals`, free-text `labs` (missing text keys default to `""`). -/
structure PatientData where
  patient : Option Patient
  vitals : String
  labs : String
deriving DecidableEq

/-- The in-progress vitals dictionary: outer `Option` is key presence,
inner `Option` is a possibly-`None` stored value. -/
structure RawVitals where
  systolic_bp : Option (Option ℚ)
  diastolic_bp : Option (Option ℚ)
  heart_rate : Option (Option ℚ)
  respiratory_rate : Option (Option ℚ)
  temperature : Option (Option ℚ)
  spo2 : Option (Option ℚ)
deriving DecidableEq

/-- The final vitals measurement map (no key holds a null value). -/
structure VitalsMap where
  systolic_bp : Option ℚ
  diastolic_bp : Option ℚ
  heart_rate : Option ℚ
  respiratory_rate : Option ℚ
  temperature : Option ℚ
  spo2 : Option ℚ
deriving DecidableEq

/-- The empty vitals dictionary `{}`. -/
def emptyRaw : RawVitals := ⟨none, none, none, none, none, none⟩

/-- `vitals.update({...})` with the six structured keys: every key becomes
present, holding the (possibly `None`) structured attribute. -/
def updateStructured (p : Patient) (_r : RawVitals) : RawVitals :=
  { systolic_bp := some p.systolic_bp
    diastolic_bp := some p.diastolic_bp
    heart_rate := some p.heart_rate
    respiratory_rate := some p.resp_rate
    temperature := some p.temperature
    spo2 := some p.spo2 }

/-- `vitals.update(parsed_vitals)`: each key the text parser produced
overwrites the stored entry; other keys are untouched. -/
def updateParsed (pv : ParsedVitals) (r : RawVitals) : RawVitals :=
  { systolic_bp := match pv.systolic_bp with
      | some v => some (some v)
      | none => r.systolic_bp
    diastolic_bp := match pv.diastolic_bp with
      | some v => some (some v)
      | none => r.diastolic_bp
    heart_rate := match pv.heart_rate with
      | some v => some (some v)
      | none => r.heart_rate
    respiratory_rate := r.respiratory_rate
    temperature := match pv.temperature with
      | some v => some (some v)
      | none => r.temperature
    spo2 := match pv.spo2 with
      | some v => some (some v)
      | none => r.spo2 }

/-- The final comprehension `{k: v for k, v in vitals.items() if v is not
None}`: a key survives only when present with a non-null value. -/
def filterRaw (r : RawVitals) : VitalsMap :=
  { systolic_bp := r.systolic_bp.join
    diastolic_bp := r.diastolic_bp.join
    heart_rate := r.heart_rate.join
    respiratory_rate := r.respiratory_rate.join
    temperature := r.temperature.join
    spo2 := r.spo2.join }

/-- `_extract_vitals`: structured values first, text-parsed values second
(overwriting), then the null filter. -/
def extract_vitals (pd : PatientData) : VitalsMap :=
  let r0 := emptyRaw
  let r1 := match pd.patient with
    | some p => updateStructured p r0
    | none => r0
  let r2 := if pd.vitals ≠ "" then updateParsed (parse_vitals_from_text pd.vitals) r1 else r1
  filterRaw r2

/-- `_extract_labs`: parse the labs free text when non-empty, else `{}`. -/
def extract_labs (pd : PatientData) : LabsMap :=
  if pd.labs ≠ "" then parse_labs_from_text pd.labs else ⟨none, none, none, none⟩

/-! ### Validation verdicts and the per-condition validators -/

/-- The verdict record returned by every `_validate_*` rule. -/
structure Verdict where
  is_valid : Bool
  max_confidence : ℚ
  severity : String
  reason : String
  notes : String
deriving DecidableEq

/-- Rendering of a numeric measurement inside a message string. Exact
rationals stand in for Python floats, so the digits differ from CPython's
`str(float)`, but which value is printed where is preserved. -/
def fmtQ (q : ℚ) : String :=
  if q.den = 1 then toString q.num else toString q.num ++ "/" ++ toString q.den

/-- `_validate_hypertension`: requires both BP components; positive when
SBP ≥ 140 or DBP ≥ 90. -/
def validate_hypertension (vitals : VitalsMap) (_ev : String) : Verdict :=
  match vitals.systolic_bp, vitals.diastolic_bp with
  | some s, some d =>
    if s ≥ 140 ∨ d ≥ 90 then
      { is_valid := true
        max_confidence := 1
        severity := "INFO"
        reason := "BP " ++ fmtQ s ++ "/" ++ fmtQ d ++ " meets hypertension criteria"
        notes := "Validated: BP " ++ fmtQ s ++ "/" ++ fmtQ d ++ " ≥ 140/90" }
    else
      { is_valid := false
        max_confidence := 0
        severity := "CRITICAL"
        reason := "BP " ++ fmtQ s ++ "/" ++ fmtQ d ++ " is NORMAL (not hypertensive). Normal range: <140/90"
        notes := "INVALID: BP " ++ fmtQ s ++ "/" ++ fmtQ d ++ " does not meet hypertension criteria (≥140/90)" }
  | _, _ =>
    { is_valid := false
      max_confidence := 0.5
      severity := "WARNING"
      reason := "Blood pressure values not available for hypertension diagnosis"
      notes := "Cannot validate hypertension without BP measurements" }

/-- `_validate_hypotension`: requires SBP; positive when SBP < 90. -/
def validate_hypotension (vitals : VitalsMap) (_ev : String) : Verdict :=
  match vitals.systolic_bp with
  | some s =>
    if s < 90 then
      { is_valid := true
        max_confidence := 1
        severity := "INFO"
        reason := "SBP " ++ fmtQ s ++ " meets hypotension criteria"
        notes := "Validated: SBP " ++ fmtQ s ++ " < 90" }
    else
      { is_valid := false
        max_confidence := 0
        severity := "CRITICAL"
        reason := "SBP " ++ fmtQ s ++ " is NORMAL (not hypotensive). Hypotension: <90 mmHg"
        notes := "INVALID: SBP " ++ fmtQ s ++ " does not meet hypotension criteria (<90)" }
  | none =>
    { is_valid := false
      max_confidence := 0.5
      severity := "WARNING"
      reason := "Blood pressure values not available"
      notes := "Cannot validate hypotension without BP measurements" }

/-- `_validate_tachycardia`: requires heart rate; positive when HR > 100. -/
def validate_tachycardia (vitals : VitalsMap) (_ev : String) : Verdict :=
  match vitals.heart_rate with
  | some hr =>
    if hr > 100 then
      { is_valid := true
        max_confidence := 1
        severity := "INFO"
        reason := "HR " ++ fmtQ hr ++ " bpm meets tachycardia criteria"
        notes := "Validated: HR " ++ fmtQ hr ++ " > 100 bpm" }
    else
      { is_valid := false
        max_confidence := 0
        severity := "CRITICAL"
        reason := "HR " ++ fmtQ hr ++ " bpm is NORMAL (not tachycardic). Tachycardia: >100 bpm"
        notes := "INVALID: HR " ++ fmtQ hr ++ " does not meet tachycardia criteria (>100)" }
  | none =>
    { is_valid := false
      max_confidence := 0.5
      severity := "WARNING"
      reason := "Heart rate not available"
      notes := "Cannot validate tachycardia without heart rate" }

/-- `_validate_bradycardia`: requires heart rate; positive when HR < 60. -/
def validate_bradycardia (vitals : VitalsMap) (_ev : String) : Verdict :=
  match vitals.heart_rate with
  | some hr =>
    if hr < 60 then
      { is_valid := true
        max_confidence := 1
        severity := "INFO"
        reason := "HR " ++ fmtQ hr ++ " bpm meets bradycardia criteria"
        notes := "Validated: HR " ++ fmtQ hr ++ " < 60 bpm" }
    else
      { is_valid := false
        max_confidence := 0
        severity := "CRITICAL"
        reason := "HR " ++ fmtQ hr ++ " bpm is NORMAL (not bradycardic). Bradycardia: <60 bpm"
        notes := "INVALID: HR " ++ fmtQ hr ++ " does not meet bradycardia criteria (<60)" }
  | none =>
    { is_valid := false
      max_confidence := 0.5
      severity := "WARNING"
      reason := "Heart rate not available"
      notes := "Cannot validate bradycardia without heart rate" }

/-- Python truthiness of an optional float: `None` and `0.0` are falsy. -/
def truthy (o : Option ℚ) : Bool :=
  match o with
  | none => false
  | some v => v ≠ 0

/-- `_validate_diabetes`: glucose evaluated first (`if glucose and glucose
>= 126`), then HbA1c; the CRITICAL reason renders a falsy value as N/A. -/
def validate_diabetes (labs : LabsMap) (_ev : String) : Verdict :=
  let glucose := labs.glucose
  let hba1c := labs.hba1c
  if glucose = none ∧ hba1c = none then
    { is_valid := false
      max_confidence := 0.5
      severity := "WARNING"
      reason := "No glucose or HbA1c values available"
      notes := "Cannot validate diabetes without glucose or HbA1c" }
  else if truthy glucose ∧ glucose.getD 0 ≥ 126 then
    { is_valid := true
      max_confidence := 1
      severity := "INFO"
      reason := "Glucose " ++ fmtQ (glucose.getD 0) ++ " mg/dL meets diabetes criteria"
      notes := "Validated: Glucose " ++ fmtQ (glucose.getD 0) ++ " ≥ 126 mg/dL" }
  else if truthy hba1c ∧ hba1c.getD 0 ≥ 6.5 then
    { is_valid := true
      max_confidence := 1
      severity := "INFO"
      reason := "HbA1c " ++ fmtQ (hba1c.getD 0) ++ "% meets diabetes criteria"
      notes := "Validated: HbA1c " ++ fmtQ (hba1c.getD 0) ++ " ≥ 6.5%" }
  else
    let glucose_text := if truthy glucose then "Glucose: " ++ fmtQ (glucose.getD 0) ++ " mg/dL" else "Glucose: N/A"
    let hba1c_text := if truthy hba1c then "HbA1c: " ++ fmtQ (hba1c.getD 0) ++ "%" else "HbA1c: N/A"
    { is_valid := false
      max_confidence := 0
      severity := "CRITICAL"
      reason := "Lab values do not meet diabetes criteria. " ++ glucose_text ++ ", " ++ hba1c_text
      notes := "INVALID: Neither glucose (≥126) nor HbA1c (≥6.5%) criteria met" }

/-- `_validate_anemia`: requires hemoglobin; positive when Hgb < 12. -/
def validate_anemia (labs : LabsMap) (_ev : String) : Verdict :=
  match labs.hemoglobin with
  | some h =>
    if h < 12 then
      { is_valid := true
        max_confidence := 1
        severity := "INFO"
        reason := "Hemoglobin " ++ fmtQ h ++ " g/dL meets anemia criteria"
        notes := "Validated: Hemoglobin " ++ fmtQ h ++ " < 12 g/dL" }
    else
      { is_valid := false
        max_confidence := 0
        severity := "CRITICAL"
        reason := "Hemoglobin " ++ fmtQ h ++ " g/dL is NORMAL (not anemic). Anemia: <12 g/dL"
        notes := "INVALID: Hemoglobin " ++ fmtQ h ++ " does not meet anemia criteria (<12)" }
  | none =>
    { is_valid := false
      max_confidence := 0.5
      severity := "WARNING"
      reason := "Hemoglobin value not available"
      notes := "Cannot validate anemia without hemoglobin" }

/-- `_validate_kidney_disease`: requires creatinine; positive when
creatinine > 1.3. -/
def validate_kidney_disease (labs : LabsMap) (_ev : String) : Verdict :=
  match labs.creatinine with
  | some c =>
    if c > 1.3 then
      { is_valid := true
        max_confidence := 1
        severity := "INFO"
        reason := "Creatinine " ++ fmtQ c ++ " mg/dL suggests kidney dysfunction"
        notes := "Validated: Creatinine " ++ fmtQ c ++ " > 1.3 mg/dL" }
    else
      { is_valid := false
        max_confidence := 0
        severity := "CRITICAL"
        reason := "Creatinine " ++ fmtQ c ++ " mg/dL is NORMAL. Kidney disease: >1.3 mg/dL"
        notes := "INVALID: Creatinine " ++ fmtQ c ++ " does not suggest kidney disease (>1.3)" }
  | none =>
    { is_valid := false
      max_confidence := 0.5
      severity := "WARNING"
      reason := "Creatinine value not available"
      notes := "Cannot validate kidney disease without creatinine" }

/-! ### Keyword dispatch -/

def kwHypertension : String := "hypertension"

def kwHypotension : String := "hypotension"

def kwTachycardia : String := "tachycardia"

def kwBradycardia : String := "bradycardia"

def kwDiabetes : String := "diabetes"

def kwDiabetic : String := "diabetic"

def kwAnemia : String := "anemia"

def kwKidney : String := "kidney"

def kwRenal : String := "renal"

/-- The fallthrough verdict when no keyword matches. -/
def no_rule_verdict : Verdict :=
  { is_valid := true
    max_confidence := 1
    severity := "INFO"
    reason := "No specific validation rule available"
    notes := "Diagnosis not validated by clinical rules engine" }

/-- `_validate_single_diagnosis`: extract the measurement maps, then the
if/elif keyword chain over the (already lower-cased) diagnosis name. -/
def validate_single_diagnosis (dn : String) (pd : PatientData) (ev : String) : Verdict :=
  let vitals := extract_vitals pd
  let labs := extract_labs pd
  if strContainsB dn kwHypertension then validate_hypertension vitals ev
  else if strContainsB dn kwHypotension then validate_hypotension vitals ev
  else if strContainsB dn kwTachycardia then validate_tachycardia vitals ev
  else if strContainsB dn kwBradycardia then validate_bradycardia vitals ev
  else if strContainsB dn kwDiabetes || strContainsB dn kwDiabetic then validate_diabetes labs ev
  else if strContainsB dn kwAnemia then validate_anemia labs ev
  else if strContainsB dn kwKidney || strContainsB dn kwRenal then validate_kidney_disease labs ev
  else no_rule_verdict

/-! ### The validation batch runner -/

/-- A candidate diagnosis dictionary: each key may be missing. -/
structure CandidateDiagnosis where
  name : Option String
  confidence : Option ℚ
  evidence : Option String
deriving DecidableEq

/-- An output record of the batch runner. -/
structure ValidatedDiagnosis where
  name : String
  confidence : ℚ
  evidence : String
  validation_status : String
  rule_engine_notes : String
deriving DecidableEq

/-- The prefix put on FLAGGED notes. -/
def warnPrefix : String := "⚠️ WARNING: "

/-- The error carried by the model when Python would raise. -/
def keyErrorName : String := "KeyError: name"

/-- `validate_diagnoses`: the batch loop. Emitted records read the name
with `diagnosis['name']` (a plain subscript), so a candidate whose verdict
leads to an emitted record but whose `name` key is missing raises
`KeyError`, modelled as `Except.error`. -/
def validate_diagnoses (pd : PatientData) : List CandidateDiagnosis → Except String (List ValidatedDiagnosis)
  | [] => Except.ok []
  | d :: rest =>
    let dn := strLower (d.name.getD emptyStr)
    let confidence := d.confidence.getD 0
    let evidence := d.evidence.getD emptyStr
    let vr := validate_single_diagnosis dn pd evidence
    if vr.is_valid then
      match d.name with
      | none => Except.error keyErrorName
      | some nm =>
        match validate_diagnoses pd rest with
        | Except.error e => Except.error e
        | Except.ok tail =>
          Except.ok ({ name := nm
                       confidence := min confidence vr.max_confidence
                       evidence := evidence
                       validation_status := "VALIDATED"
                       rule_engine_notes := vr.notes } :: tail)
    else if vr.severity = "CRITICAL" then
      validate_diagnoses pd rest
    else
      match d.name with
      | none => Except.error keyErrorName
      | some nm =>
        match validate_diagnoses pd rest with
        | Except.error e => Except.error e
        | Except.ok tail =>
          Except.ok ({ name := nm
                       confidence := max 0.1 (confidence * 0.3)
                       evidence := evidence
                       validation_status := "FLAGGED"
                       rule_engine_notes := warnPrefix ++ vr.reason } :: tail)

/-- Per-candidate outcome of the batch runner on a well-formed candidate
(one whose `name` key is present): `some` record kept, `none` dropped. -/
def emitOne (pd : PatientData) (d : CandidateDiagnosis) : Option ValidatedDiagnosis :=
  let dn := strLower (d.name.getD emptyStr)
  let confidence := d.confidence.getD 0
  let evidence := d.evidence.getD emptyStr
  let vr := validate_single_diagnosis dn pd evidence
  if vr.is_valid then
    some { name := d.name.getD emptyStr
           confidence := min confidence vr.max_confidence
           evidence := evidence
           validation_status := "VALIDATED"
           rule_engine_notes := vr.notes }
  else if vr.severity = "CRITICAL" then none
  else
    some { name := d.name.getD emptyStr
           confidence := max 0.1 (confidence * 0.3)
           evidence := evidence
           validation_status := "FLAGGED"
           rule_engine_notes := warnPrefix ++ vr.reason }

/-! ### The rule catalog as an ordered keyword table (spec section 4.2) -/

/-- Names for the seven condition rules. -/
inductive RuleId where
  | hypertension
  | hypotension
  | tachycardia
  | bradycardia
  | diabetes
  | anemia
  | kidney
deriving DecidableEq

/-- The keywords attached to each rule. -/
def ruleKeywords : RuleId → List String
  | .hypertension => [kwHypertension]
  | .hypotension => [kwHypotension]
  | .tachycardia => [kwTachycardia]
  | .bradycardia => [kwBradycardia]
  | .diabetes => [kwDiabetes, kwDiabetic]
  | .anemia => [kwAnemia]
  | .kidney => [kwKidney, kwRenal]

/-- The priority order in which keywords are tested. -/
def rulePriority : List RuleId :=
  [.hypertension, .hypotension, .tachycardia, .bradycardia, .diabetes, .anemia, .kidney]

/-- First rule in priority order with a keyword occurring in the name. -/
def firstMatchingRule (dn : String) : Option RuleId :=
  rulePriority.find? (fun r => (ruleKeywords r).any (fun kw => strContainsB dn kw))

/-- Evaluate a catalog rule on the measurement maps of a record. -/
def applyRule (r : RuleId) (pd : PatientData) (ev : String) : Verdict :=
  match r with
  | .hypertension => validate_hypertension (extract_vitals pd) ev
  | .hypotension => validate_hypotension (extract_vitals pd) ev
  | .tachycardia => validate_tachycardia (extract_vitals pd) ev
  | .bradycardia => validate_bradycardia (extract_vitals pd) ev
  | .diabetes => validate_diabetes (extract_labs pd) ev
  | .anemia => validate_anemia (extract_labs pd) ev
  | .kidney => validate_kidney_disease (extract_labs pd) ev

/-! ### Concrete fixtures used in statements and witnesses -/

def pdEmpty : PatientData := ⟨none, emptyStr, emptyStr⟩

def vitalsEmpty : VitalsMap := ⟨none, none, none, none, none, none⟩

def labsEmpty : LabsMap := ⟨none, none, none, none⟩

def parsedEmpty : ParsedVitals := ⟨none, none, none, none, none⟩

def sHypertension : String := "Hypertension"

def sMigraine : String := "Migraine"

def sVALIDATED : String := "VALIDATED"

def sFLAGGED : String := "FLAGGED"

def sCRITICAL : String := "CRITICAL"

def sWARNING : String := "WARNING"

def sINFO : String := "INFO"

def glucoseNA : String := "Glucose: N/A"

def glucoseZeroTxt : String := "Glucose: 0"

def mBloodPressure : String := "Blood pressure"

def mHeartRate : String := "Heart rate"

def mGlucoseOrHbA1c : String := "glucose or HbA1c"

def mHemoglobin : String := "Hemoglobin"

def mCreatinine : String := "Creatinine"

def txtVitals1 : String := "BP: 150/95, HR: 110"

def txtLabs1 : String := "Glucose: 130"

def txtHR729 : String := "HR: 72.9"

def txtAllLower : String := "bp 150/95 hr 110 temp 98.6 spo2 97"

def txtBPdot : String := "BP: 120.5/80"

def txtSpO2dot : String := "SpO2: 97.5"

def evNote : String := "elevated bp noted"

def pdText1 : PatientData := ⟨none, txtVitals1, txtLabs1⟩

def candHTN : CandidateDiagnosis := ⟨some sHypertension, some 0.8, some evNote⟩

def candNoName : CandidateDiagnosis := ⟨none, some 0.9, none⟩

def candMigraineNoConf : CandidateDiagnosis := ⟨some sMigraine, none, none⟩

def candMigraine : CandidateDiagnosis := ⟨some sMigraine, some 2, none⟩

/-! ### Helper lemmas -/

theorem isPrefixOf_append_right {p l t : List Char} (h : p.isPrefixOf l = true) :
    p.isPrefixOf (l ++ t) = true := by
  induction p generalizing l with
  | nil => simp [List.isPrefixOf]
  | cons a p ih =>
    cases l with
    | nil => simp [List.isPrefixOf] at h
    | cons b l =>
      simp only [List.isPrefixOf, List.cons_append, Bool.and_eq_true] at h ⊢
      exact ⟨h.1, ih h.2⟩

theorem containsSub_nil_needle (l : List Char) : containsSub l [] = true := by
  induction l with
  | nil => rfl
  | cons c t ih => simp [containsSub, List.isPrefixOf]

theorem containsSub_append_right {hay t needle : List Char}
    (h : containsSub hay needle = true) : containsSub (hay ++ t) needle = true := by
  induction hay with
  | nil =>
    have hn : needle = [] := by
      cases needle with
      | nil => rfl
      | cons a b => simp [containsSub] at h
    subst hn
    exact containsSub_nil_needle t
  | cons c hay ih =>
    simp only [containsSub, Bool.or_eq_true, List.cons_append] at h ⊢
    rcases h with h | h
    · exact Or.inl (isPrefixOf_append_right h)
    · exact Or.inr (ih h)

theorem strContainsB_append_left {s t needle : String}
    (h : strContainsB s needle = true) : strContainsB (s ++ t) needle = true := by
  unfold strContainsB at h ⊢
  have hd : (s ++ t).data = s.data ++ t.data := by
    cases s
    cases t
    rfl
  rw [hd]
  exact containsSub_append_right h

theorem isPrefixOf_refl (p : List Char) : p.isPrefixOf p = true := by
  induction p with
  | nil => rfl
  | cons a t ih => simp [List.isPrefixOf, ih]

theorem containsSub_append_of_right {s t needle : List Char}
    (h : containsSub t needle = true) : containsSub (s ++ t) needle = true := by
  induction s with
  | nil => exact h
  | cons c s ih =>
    simp only [List.cons_append, containsSub, Bool.or_eq_true]
    exact Or.inr ih

theorem containsSub_middle (a n b : List Char) : containsSub (a ++ n ++ b) n = true := by
  induction a with
  | nil =>
    cases n with
    | nil => exact containsSub_nil_needle _
    | cons c t =>
      simp only [List.nil_append, containsSub, Bool.or_eq_true]
      exact Or.inl (isPrefixOf_append_right (isPrefixOf_refl _))
  | cons c a ih =>
    simp only [List.cons_append, containsSub, Bool.or_eq_true]
    exact Or.inr ih

theorem strContainsB_append_right {s t needle : String}
    (h : strContainsB t needle = true) : strContainsB (s ++ t) needle = true := by
  unfold strContainsB at h ⊢
  have hd : (s ++ t).data = s.data ++ t.data := by
    cases s
    cases t
    rfl
  rw [hd]
  exact containsSub_append_of_right h

theorem strContainsB_middle (a n b : String) : strContainsB (a ++ n ++ b) n = true := by
  unfold strContainsB
  have hd : (a ++ n ++ b).data = a.data ++ n.data ++ b.data := by
    cases a
    cases n
    cases b
    simp [String.data]
  rw [hd]
  exact containsSub_middle _ _ _

theorem validate_eq_filterMap (pd : PatientData) :
    ∀ ds : List CandidateDiagnosis, (∀ d ∈ ds, (d.name).isSome = true) →
      validate_diagnoses pd ds = Except.ok (List.filterMap (emitOne pd) ds) := by
  intro ds
  induction ds with
  | nil => intro _; rfl
  | cons d rest ih =>
    intro h
    obtain ⟨dname, dconf, dev⟩ := d
    have hd := h ⟨dname, dconf, dev⟩ (List.mem_cons_self _ rest)
    obtain ⟨nm, hnm⟩ := Option.isSome_iff_exists.mp hd
    have ihr := ih (fun x hx => h x (List.mem_cons_of_mem _ hx))
    simp only at hnm
    subst hnm
    simp only [validate_diagnoses, emitOne, List.filterMap_cons, ihr, Option.getD_some]
    by_cases hv : (validate_single_diagnosis (strLower nm) pd (dev.getD emptyStr)).is_valid = true
    · simp [hv]
    · simp only [hv, if_false]
      by_cases hc : (validate_single_diagnosis (strLower nm) pd (dev.getD emptyStr)).severity = "CRITICAL"
      · simp [hc]
      · simp [hc]

/-! ### Claims -/

/-- Claim C2: with both BP components present, the hypertension validator
yields is_valid = true with severity INFO exactly when systolic ≥ 140 or
diastolic ≥ 90, and yields is_valid = false with severity CRITICAL
otherwise; a diagnosis name containing "hypertension" dispatches to this
validator on the extracted vitals. -/
theorem C2_hypertension_threshold (v : VitalsMap) (ev : String) (s d : ℚ)
    (hs : v.systolic_bp = some s) (hd : v.diastolic_bp = some d) :
    (((validate_hypertension v ev).is_valid = true ∧
        (validate_hypertension v ev).severity = sINFO) ↔ (s ≥ 140 ∨ d ≥ 90))
    ∧ (¬(s ≥ 140 ∨ d ≥ 90) →
        (validate_hypertension v ev).is_valid = false ∧
        (validate_hypertension v ev).severity = sCRITICAL)
    ∧ (∀ (pd : PatientData) (dn : String), strContainsB dn kwHypertension = true →
        validate_single_diagnosis dn pd ev = validate_hypertension (extract_vitals pd) ev) := by
  refine ⟨?_, ?_, ?_⟩
  · unfold validate_hypertension
    rw [hs, hd]
    dsimp only
    by_cases hc : s ≥ 140 ∨ d ≥ 90
    · rw [if_pos hc]
      simp [sINFO, hc]
    · rw [if_neg hc]
      simp [sINFO, sCRITICAL, hc]
  · intro hc
    unfold validate_hypertension
    rw [hs, hd]
    dsimp only
    rw [if_neg hc]
    exact ⟨rfl, rfl⟩
  · intro pd dn h
    simp [validate_single_diagnosis, h]

/-- Witness for C2 at the boundary values 140/90 (positive) and 139/89
(negative). -/
theorem C2_hypertension_threshold_witness :
    (validate_hypertension ⟨some 140, some 90, none, none, none, none⟩ emptyStr).is_valid = true
    ∧ (validate_hypertension ⟨some 139, some 89, none, none, none, none⟩ emptyStr).severity = sCRITICAL := by
  constructor
  · exact ((C2_hypertension_threshold ⟨some 140, some 90, none, none, none, none⟩ emptyStr
      140 90 rfl rfl).1.mpr (Or.inl (by norm_num))).1
  · exact ((C2_hypertension_threshold ⟨some 139, some 89, none, none, none, none⟩ emptyStr
      139 89 rfl rfl).2.1 (by norm_num)).2

/-- Claim C8: for every condition rule, a missing required measurement
(for diabetes, both alternatives missing) yields is_valid = false,
severity WARNING, max_confidence 0.5, and a reason naming the missing
measurement. -/
theorem C8_missing_measurement (v : VitalsMap) (l : LabsMap) (ev : String) :
    (v.systolic_bp = none ∨ v.diastolic_bp = none →
      (validate_hypertension v ev).is_valid = false
      ∧ (validate_hypertension v ev).severity = sWARNING
      ∧ (validate_hypertension v ev).max_confidence = 0.5
      ∧ strContainsB (validate_hypertension v ev).reason mBloodPressure = true)
    ∧ (v.systolic_bp = none →
      (validate_hypotension v ev).is_valid = false
      ∧ (validate_hypotension v ev).severity = sWARNING
      ∧ (validate_hypotension v ev).max_confidence = 0.5
      ∧ strContainsB (validate_hypotension v ev).reason mBloodPressure = true)
    ∧ (v.heart_rate = none →
      (validate_tachycardia v ev).is_valid = false
      ∧ (validate_tachycardia v ev).severity = sWARNING
      ∧ (validate_tachycardia v ev).max_confidence = 0.5
      ∧ strContainsB (validate_tachycardia v ev).reason mHeartRate = true)
    ∧ (v.heart_rate = none →
      (validate_bradycardia v ev).is_valid = false
      ∧ (validate_bradycardia v ev).severity = sWARNING
      ∧ (validate_bradycardia v ev).max_confidence = 0.5
      ∧ strContainsB (validate_bradycardia v ev).reason mHeartRate = true)
    ∧ (l.glucose = none → l.hba1c = none →
      (validate_diabetes l ev).is_valid = false
      ∧ (validate_diabetes l ev).severity = sWARNING
      ∧ (validate_diabetes l ev).max_confidence = 0.5
      ∧ strContainsB (validate_diabetes l ev).reason mGlucoseOrHbA1c = true)
    ∧ (l.hemoglobin = none →
      (validate_anemia l ev).is_valid = false
      ∧ (validate_anemia l ev).severity = sWARNING
      ∧ (validate_anemia l ev).max_confidence = 0.5
      ∧ strContainsB (validate_anemia l ev).reason mHemoglobin = true)
    ∧ (l.creatinine = none →
      (validate_kidney_disease l ev).is_valid = false
      ∧ (validate_kidney_disease l ev).severity = sWARNING
      ∧ (validate_kidney_disease l ev).max_confidence = 0.5
      ∧ strContainsB (validate_kidney_disease l ev).reason mCreatinine = true) := by
  refine ⟨?_, ?_, ?_, ?_, ?_, ?_, ?_⟩
  · intro h
    unfold validate_hypertension
    rcases h with h | h
    · rw [h]
      cases hd : v.diastolic_bp <;> (dsimp only; exact ⟨rfl, rfl, rfl, by decide⟩)
    · rw [h]
      cases hs : v.systolic_bp <;> (dsimp only; exact ⟨rfl, rfl, rfl, by decide⟩)
  · intro h
    unfold validate_hypotension
    rw [h]
    dsimp only
    exact ⟨rfl, rfl, rfl, by decide⟩
  · intro h
    unfold validate_tachycardia
    rw [h]
    dsimp only
    exact ⟨rfl, rfl, rfl, by decide⟩
  · intro h
    unfold validate_bradycardia
    rw [h]
    dsimp only
    exact ⟨rfl, rfl, rfl, by decide⟩
  · intro hg hh
    unfold validate_diabetes
    rw [hg, hh]
    dsimp only
    rw [if_pos ⟨rfl, rfl⟩]
    exact ⟨rfl, rfl, rfl, by decide⟩
  · intro h
    unfold validate_anemia
    rw [h]
    dsimp only
    exact ⟨rfl, rfl, rfl, by decide⟩
  · intro h
    unfold validate_kidney_disease
    rw [h]
    dsimp only
    exact ⟨rfl, rfl, rfl, by decide⟩

/-- Witness for C8 at the all-empty measurement maps. -/
theorem C8_missing_measurement_witness :
    (validate_hypertension vitalsEmpty emptyStr).severity = sWARNING
    ∧ (validate_hypotension vitalsEmpty emptyStr).severity = sWARNING
    ∧ (validate_tachycardia vitalsEmpty emptyStr).severity = sWARNING
    ∧ (validate_bradycardia vitalsEmpty emptyStr).severity = sWARNING
    ∧ (validate_diabetes labsEmpty emptyStr).severity = sWARNING
    ∧ (validate_anemia labsEmpty emptyStr).severity = sWARNING
    ∧ (validate_kidney_disease labsEmpty emptyStr).severity = sWARNING := by
  have h := C8_missing_measurement vitalsEmpty labsEmpty emptyStr
  exact ⟨(h.1 (Or.inl rfl)).2.1, (h.2.1 rfl).2.1, (h.2.2.1 rfl).2.1,
    (h.2.2.2.1 rfl).2.1, (h.2.2.2.2.1 rfl rfl).2.1, (h.2.2.2.2.2.1 rfl).2.1,
    (h.2.2.2.2.2.2 rfl).2.1⟩

/-- Claim C9: dispatch is by case-insensitive keyword substring over the
lower-cased name in the fixed priority order hypertension, hypotension,
tachycardia, bradycardia, diabetes/diabetic, anemia, kidney/renal (first
match wins), and a name matching no keyword gets the pass-through verdict
(is_valid true, severity INFO, max_confidence 1) and is always emitted as
VALIDATED by the runner. -/
theorem C9_keyword_dispatch :
    (∀ (dn : String) (pd : PatientData) (ev : String),
      validate_single_diagnosis dn pd ev =
        (firstMatchingRule dn).elim no_rule_verdict (fun r => applyRule r pd ev))
    ∧ no_rule_verdict.is_valid = true ∧ no_rule_verdict.severity = sINFO
      ∧ no_rule_verdict.max_confidence = 1
    ∧ (∀ (pd : PatientData) (d : CandidateDiagnosis) (nm : String),
        d.name = some nm → firstMatchingRule (strLower nm) = none →
        emitOne pd d = some ⟨nm, min ((d.confidence).getD 0) 1, (d.evidence).getD emptyStr,
          sVALIDATED, no_rule_verdict.notes⟩) := by
  have hmain : ∀ (dn : String) (pd : PatientData) (ev : String),
      validate_single_diagnosis dn pd ev =
        (firstMatchingRule dn).elim no_rule_verdict (fun r => applyRule r pd ev) := by
    intro dn pd ev
    unfold validate_single_diagnosis
    dsimp only
    repeat' split
    all_goals
      try simp_all [firstMatchingRule, rulePriority, ruleKeywords, applyRule, List.find?]
    all_goals
      rcases ‹_ ∨ _› with h | h <;>
        simp_all [firstMatchingRule, rulePriority, ruleKeywords, applyRule, List.find?]
  refine ⟨hmain, rfl, rfl, rfl, ?_⟩
  intro pd d nm hnm hnone
  obtain ⟨dn0, dc, de⟩ := d
  simp only at hnm
  subst hnm
  unfold emitOne
  simp only [Option.getD_some]
  rw [hmain, hnone]
  simp [no_rule_verdict, sVALIDATED, Option.elim]

/-- Witness for C9: "Migraine" matches no keyword and passes through as
VALIDATED. -/
theorem C9_keyword_dispatch_witness :
    validate_single_diagnosis (strLower sMigraine) pdEmpty emptyStr =
      (firstMatchingRule (strLower sMigraine)).elim no_rule_verdict
        (fun r => applyRule r pdEmpty emptyStr)
    ∧ emitOne pdEmpty candMigraine = some ⟨sMigraine, min ((candMigraine.confidence).getD 0) 1,
        (candMigraine.evidence).getD emptyStr, sVALIDATED, no_rule_verdict.notes⟩ :=
  ⟨C9_keyword_dispatch.1 (strLower sMigraine) pdEmpty emptyStr,
   C9_keyword_dispatch.2.2.2.2 pdEmpty candMigraine sMigraine rfl (by decide)⟩

/-- Claim C3: with every candidate carrying a name key, the batch output
is the order-preserving `filterMap` of a per-candidate function, so each
candidate yields exactly one freshly constructed record (VALIDATED or
FLAGGED) or none, the latter exactly when the verdict is CRITICAL-invalid;
no candidate is duplicated. -/
theorem C3_batch_invariant (pd : PatientData) (ds : List CandidateDiagnosis)
    (h : ∀ d ∈ ds, (d.name).isSome = true) :
    validate_diagnoses pd ds = Except.ok (List.filterMap (emitOne pd) ds)
    ∧ (∀ d : CandidateDiagnosis,
        (emitOne pd d = none ↔
          ((validate_single_diagnosis (strLower ((d.name).getD emptyStr)) pd
              ((d.evidence).getD emptyStr)).is_valid = false
            ∧ (validate_single_diagnosis (strLower ((d.name).getD emptyStr)) pd
              ((d.evidence).getD emptyStr)).severity = sCRITICAL))
        ∧ (∀ r, emitOne pd d = some r →
            r.validation_status = sVALIDATED ∨ r.validation_status = sFLAGGED)) := by
  refine ⟨validate_eq_filterMap pd ds h, ?_⟩
  intro d
  constructor
  · unfold emitOne
    by_cases hv : (validate_single_diagnosis (strLower ((d.name).getD emptyStr)) pd
        ((d.evidence).getD emptyStr)).is_valid = true
    · simp [hv]
    · simp only [hv, if_false]
      by_cases hc : (validate_single_diagnosis (strLower ((d.name).getD emptyStr)) pd
          ((d.evidence).getD emptyStr)).severity = "CRITICAL"
      · simp_all [sCRITICAL]
      · simp_all [sCRITICAL]
  · intro r hr
    unfold emitOne at hr
    by_cases hv : (validate_single_diagnosis (strLower ((d.name).getD emptyStr)) pd
        ((d.evidence).getD emptyStr)).is_valid = true
    · rw [if_pos hv] at hr
      left
      cases hr
      rfl
    · rw [if_neg hv] at hr
      by_cases hc : (validate_single_diagnosis (strLower ((d.name).getD emptyStr)) pd
          ((d.evidence).getD emptyStr)).severity = "CRITICAL"
      · rw [if_pos hc] at hr
        cases hr
      · rw [if_neg hc] at hr
        right
        cases hr
        rfl

/-- Witness for C3 on a concrete two-candidate batch. -/
theorem C3_batch_invariant_witness :
    validate_diagnoses pdText1 [candHTN, candMigraine] =
      Except.ok (List.filterMap (emitOne pdText1) [candHTN, candMigraine]) :=
  (C3_batch_invariant pdText1 [candHTN, candMigraine] (by decide)).1

/-- Claim C1: the batch runner maps each candidate's verdict to exactly
one of three outcomes: VALIDATED with confidence min(original, ceiling)
when is_valid, nothing when invalid and CRITICAL, FLAGGED with confidence
max(0.1, original × 0.3) and warning-prefixed reason otherwise. -/
theorem C1_runner_verdict_mapping (pd : PatientData) (ds : List CandidateDiagnosis)
    (h : ∀ x ∈ ds, (x.name).isSome = true)
    (d : CandidateDiagnosis) (nm : String) (hnm : d.name = some nm) :
    validate_diagnoses pd ds = Except.ok (List.filterMap (emitOne pd) ds)
    ∧ (let vr := validate_single_diagnosis (strLower nm) pd ((d.evidence).getD emptyStr)
       (vr.is_valid = true →
          emitOne pd d = some ⟨nm, min ((d.confidence).getD 0) vr.max_confidence,
            (d.evidence).getD emptyStr, sVALIDATED, vr.notes⟩)
       ∧ (vr.is_valid = false → vr.severity = sCRITICAL → emitOne pd d = none)
       ∧ (vr.is_valid = false → vr.severity ≠ sCRITICAL →
          emitOne pd d = some ⟨nm, max 0.1 (((d.confidence).getD 0) * 0.3),
            (d.evidence).getD emptyStr, sFLAGGED, warnPrefix ++ vr.reason⟩)) := by
  refine ⟨validate_eq_filterMap pd ds h, ?_⟩
  obtain ⟨dn0, dc, de⟩ := d
  simp only at hnm
  subst hnm
  dsimp only
  refine ⟨?_, ?_, ?_⟩
  · intro hv
    unfold emitOne
    simp only [Option.getD_some]
    rw [if_pos hv]
    simp [sVALIDATED]
  · intro hv hc
    unfold emitOne
    simp only [Option.getD_some]
    rw [if_neg (by simp [hv]), if_pos (by simpa [sCRITICAL] using hc)]
  · intro hv hc
    unfold emitOne
    simp only [Option.getD_some]
    rw [if_neg (by simp [hv]), if_neg (by simpa [sCRITICAL] using hc)]
    simp [sFLAGGED]

/-- Witness for C1 on a concrete validated candidate. -/
theorem C1_runner_verdict_mapping_witness :
    emitOne pdText1 candHTN = some ⟨sHypertension,
      min ((candHTN.confidence).getD 0)
        (validate_single_diagnosis (strLower sHypertension) pdText1
          ((candHTN.evidence).getD emptyStr)).max_confidence,
      (candHTN.evidence).getD emptyStr, sVALIDATED,
      (validate_single_diagnosis (strLower sHypertension) pdText1
        ((candHTN.evidence).getD emptyStr)).notes⟩ :=
  (C1_runner_verdict_mapping pdText1 [candHTN] (by decide) candHTN sHypertension rfl).2.1
    (by decide)

/-- Claim C5 records a code bug: a candidate missing its name key is read
defensively for dispatch but the emitted record uses a plain subscript, so
the batch raises KeyError and later candidates are not processed; only a
missing confidence key is defaulted (to 0). -/
theorem C5_missing_name_keyerror :
    validate_diagnoses pdEmpty [candNoName] = Except.error keyErrorName
    ∧ validate_diagnoses pdEmpty [candNoName, candMigraine] = Except.error keyErrorName
    ∧ validate_diagnoses pdEmpty [candMigraineNoConf] =
        Except.ok [⟨sMigraine, 0, emptyStr, sVALIDATED, no_rule_verdict.notes⟩] :=
  ⟨rfl, rfl, rfl⟩

/-- Claim C10: a glucose (or HbA1c) measurement present with value 0 acts
exactly like an absent one in the diabetes rule (the truthiness test runs
before the comparison), and when the CRITICAL branch is reached the reason
reports that measurement as N/A despite its presence. -/
theorem C10_diabetes_zero_truthiness (g h : ℚ) (ev : String) :
    (validate_diabetes ⟨some 0, none, none, some h⟩ ev =
      validate_diabetes ⟨none, none, none, some h⟩ ev)
    ∧ (validate_diabetes ⟨some g, none, none, some 0⟩ ev =
      validate_diabetes ⟨some g, none, none, none⟩ ev)
    ∧ (¬(h ≠ 0 ∧ h ≥ 6.5) →
        (validate_diabetes ⟨some 0, none, none, some h⟩ ev).severity = sCRITICAL
        ∧ strContainsB (validate_diabetes ⟨some 0, none, none, some h⟩ ev).reason glucoseNA
            = true) := by
  refine ⟨?_, ?_, ?_⟩
  · simp [validate_diabetes, truthy]
  · simp [validate_diabetes, truthy]
  · intro hh
    unfold validate_diabetes
    dsimp only
    rw [if_neg (by simp), if_neg (by simp [truthy]),
      if_neg (fun hc => hh ⟨by simpa [truthy] using hc.1, by simpa using hc.2⟩)]
    refine ⟨rfl, ?_⟩
    rw [if_neg (by simp [truthy])]
    exact strContainsB_append_left (by decide)

/-- Witness for C10 at glucose = 0, HbA1c = 5. -/
theorem C10_diabetes_zero_truthiness_witness :
    (validate_diabetes ⟨some 0, none, none, some 5⟩ emptyStr).severity = sCRITICAL
    ∧ strContainsB (validate_diabetes ⟨some 0, none, none, some 5⟩ emptyStr).reason glucoseNA
        = true :=
  (C10_diabetes_zero_truthiness 5 5 emptyStr).2.2 (by norm_num)

/-- Counterexample to C4 as stated: with glucose present at 0 and HbA1c
present at 5, both values are present and neither criterion is met, the
CRITICAL verdict is returned, but its reason reports glucose as N/A
instead of citing the measured value 0. -/
theorem C4_reason_counterexample :
    (validate_diabetes ⟨some 0, none, none, some 5⟩ emptyStr).is_valid = false
    ∧ (validate_diabetes ⟨some 0, none, none, some 5⟩ emptyStr).severity = sCRITICAL
    ∧ strContainsB (validate_diabetes ⟨some 0, none, none, some 5⟩ emptyStr).reason glucoseNA
        = true
    ∧ strContainsB (validate_diabetes ⟨some 0, none, none, some 5⟩ emptyStr).reason glucoseZeroTxt
        = false := by
  refine ⟨?_, ?_, ?_, ?_⟩ <;> with_unfolding_all rfl

/-- Claim C4 (amended): glucose is evaluated first and alone decides when
its criterion holds; HbA1c is consulted only when the glucose test fails;
both absent gives the WARNING missing-data verdict with max_confidence
0.5; both present (and nonzero) with neither criterion met gives the
CRITICAL verdict whose reason cites both measured values — a value of
exactly 0 is instead reported as N/A. -/
theorem C4_diabetes_order (labs : LabsMap) (ev : String) :
    (labs.glucose = none → labs.hba1c = none →
      (validate_diabetes labs ev).is_valid = false
      ∧ (validate_diabetes labs ev).severity = sWARNING
      ∧ (validate_diabetes labs ev).max_confidence = 0.5)
    ∧ (∀ g, labs.glucose = some g → g ≥ 126 →
        (validate_diabetes labs ev).is_valid = true
        ∧ (validate_diabetes labs ev).severity = sINFO
        ∧ (validate_diabetes labs ev).max_confidence = 1
        ∧ strContainsB (validate_diabetes labs ev).reason (fmtQ g) = true)
    ∧ (∀ h2, labs.hba1c = some h2 → h2 ≠ 0 → h2 ≥ 6.5 →
        ¬(truthy labs.glucose = true ∧ (labs.glucose).getD 0 ≥ 126) →
        (validate_diabetes labs ev).is_valid = true
        ∧ (validate_diabetes labs ev).severity = sINFO
        ∧ strContainsB (validate_diabetes labs ev).reason (fmtQ h2) = true)
    ∧ (∀ g h2, labs.glucose = some g → labs.hba1c = some h2 → g ≠ 0 → h2 ≠ 0 →
        ¬(g ≥ 126) → ¬(h2 ≥ 6.5) →
        (validate_diabetes labs ev).is_valid = false
        ∧ (validate_diabetes labs ev).severity = sCRITICAL
        ∧ strContainsB (validate_diabetes labs ev).reason (fmtQ g) = true
        ∧ strContainsB (validate_diabetes labs ev).reason (fmtQ h2) = true) := by
  refine ⟨?_, ?_, ?_, ?_⟩
  · intro hg hh
    unfold validate_diabetes
    rw [hg, hh]
    dsimp only
    rw [if_pos ⟨rfl, rfl⟩]
    exact ⟨rfl, rfl, rfl⟩
  · intro g hg hge
    have hg0 : g ≠ 0 := by
      intro h0
      rw [h0] at hge
      norm_num at hge
    unfold validate_diabetes
    rw [hg]
    dsimp only
    rw [if_neg (by simp),
      if_pos ⟨by simp [truthy]; exact hg0, by simpa using hge⟩]
    simp only [Option.getD_some]
    refine ⟨by trivial, by trivial, by trivial, ?_⟩
    exact strContainsB_middle _ _ _
  · intro h2 hh hh0 hge hgfail
    unfold validate_diabetes
    rw [hh]
    dsimp only
    rw [if_neg (by simp), if_neg hgfail,
      if_pos ⟨by simp [truthy]; exact hh0, by simpa using hge⟩]
    simp only [Option.getD_some]
    refine ⟨by trivial, by trivial, ?_⟩
    exact strContainsB_middle _ _ _
  · intro g h2 hg hh hg0 hh0 hgn hhn
    unfold validate_diabetes
    rw [hg, hh]
    dsimp only
    rw [if_neg (by simp), if_neg (by simpa [truthy] using fun _ => hgn),
      if_neg (by simpa [truthy] using fun _ => hhn),
      if_pos (show truthy (some g) = true by simp [truthy]; exact hg0),
      if_pos (show truthy (some h2) = true by simp [truthy]; exact hh0)]
    simp only [Option.getD_some]
    refine ⟨by trivial, by trivial, ?_, ?_⟩
    · exact strContainsB_append_left (strContainsB_append_left
        (strContainsB_append_right (strContainsB_middle _ _ _)))
    · exact strContainsB_append_right (strContainsB_middle _ _ _)

/-- Witness for C4 (amended) at glucose 130 / at HbA1c 7 / at the
refuted pair 100 and 5. -/
theorem C4_diabetes_order_witness :
    strContainsB (validate_diabetes ⟨some 130, none, none, none⟩ emptyStr).reason (fmtQ 130)
      = true
    ∧ strContainsB (validate_diabetes ⟨none, none, none, some 7⟩ emptyStr).reason (fmtQ 7)
      = true
    ∧ strContainsB (validate_diabetes ⟨some 100, none, none, some 5⟩ emptyStr).reason (fmtQ 100)
      = true
    ∧ strContainsB (validate_diabetes ⟨some 100, none, none, some 5⟩ emptyStr).reason (fmtQ 5)
      = true :=
  ⟨((C4_diabetes_order ⟨some 130, none, none, none⟩ emptyStr).2.1 130 rfl (by norm_num)).2.2.2,
   ((C4_diabetes_order ⟨none, none, none, some 7⟩ emptyStr).2.2.1 7 rfl (by norm_num)
      (by norm_num) (by simp [truthy])).2.2,
   ((C4_diabetes_order ⟨some 100, none, none, some 5⟩ emptyStr).2.2.2 100 5 rfl rfl
      (by norm_num) (by norm_num) (by norm_num) (by norm_num)).2.2.1,
   ((C4_diabetes_order ⟨some 100, none, none, some 5⟩ emptyStr).2.2.2 100 5 rfl rfl
      (by norm_num) (by norm_num) (by norm_num) (by norm_num)).2.2.2⟩

theorem filterRaw_updateParsed (pv : ParsedVitals) (r : RawVitals) :
    filterRaw (updateParsed pv r) =
      ⟨(pv.systolic_bp).orElse (fun _ => (filterRaw r).systolic_bp),
       (pv.diastolic_bp).orElse (fun _ => (filterRaw r).diastolic_bp),
       (pv.heart_rate).orElse (fun _ => (filterRaw r).heart_rate),
       (filterRaw r).respiratory_rate,
       (pv.temperature).orElse (fun _ => (filterRaw r).temperature),
       (pv.spo2).orElse (fun _ => (filterRaw r).spo2)⟩ := by
  obtain ⟨a, b, c, d, e⟩ := pv
  cases a <;> cases b <;> cases c <;> cases d <;> cases e <;> rfl

/-- Claim C6: the extractor applies structured patient values first and
text-parsed values second, a text value overwriting the structured value
for the same key; a key whose stored value is null is stripped, so the
result holds only present numeric values (`respiratory_rate` has no text
pattern and comes from the structured record alone). -/
theorem C6_extract_vitals_precedence (pd : PatientData) :
    extract_vitals pd =
      (let st : VitalsMap := (pd.patient).elim vitalsEmpty
        (fun p => ⟨p.systolic_bp, p.diastolic_bp, p.heart_rate, p.resp_rate,
          p.temperature, p.spo2⟩)
      let pv : ParsedVitals :=
        if pd.vitals ≠ "" then parse_vitals_from_text pd.vitals else parsedEmpty
      ⟨(pv.systolic_bp).orElse (fun _ => st.systolic_bp),
       (pv.diastolic_bp).orElse (fun _ => st.diastolic_bp),
       (pv.heart_rate).orElse (fun _ => st.heart_rate),
       st.respiratory_rate,
       (pv.temperature).orElse (fun _ => st.temperature),
       (pv.spo2).orElse (fun _ => st.spo2)⟩) := by
  obtain ⟨pat, vit, lb⟩ := pd
  dsimp only
  unfold extract_vitals
  dsimp only
  by_cases hv : vit ≠ ""
  · rw [if_pos hv, if_pos hv]
    cases pat with
    | none =>
      dsimp only [Option.elim]
      rw [filterRaw_updateParsed]
      rfl
    | some p =>
      dsimp only [Option.elim]
      rw [filterRaw_updateParsed]
      rfl
  · rw [if_neg hv, if_neg hv]
    cases pat with
    | none => rfl
    | some p => rfl

theorem digit_not_space {c : Char} (h : c.isDigit = true) : isSpaceC c = false := by
  simp only [Char.isDigit, Bool.and_eq_true, decide_eq_true_eq] at h
  obtain ⟨h1, h2⟩ := h
  have h48 : (48 : Nat) ≤ c.toNat := h1
  have hne : ∀ d : Char, d.toNat < 48 → (c == d) = false := by
    intro d hd
    refine beq_eq_false_iff_ne.mpr ?_
    intro he
    subst he
    omega
  unfold isSpaceC
  rw [hne ' ' (by decide), hne '\t' (by decide), hne '\n' (by decide), hne '\r' (by decide)]
  have h11 : (c.toNat == 11) = false := beq_eq_false_iff_ne.mpr (by omega)
  have h12 : (c.toNat == 12) = false := beq_eq_false_iff_ne.mpr (by omega)
  rw [h11, h12]
  rfl

theorem takeWhile_digits {ds rest : List Char} (hdig : ∀ c ∈ ds, c.isDigit = true)
    (hrest : ∀ c, rest.head? = some c → c.isDigit = false) :
    (ds ++ rest).takeWhile Char.isDigit = ds
    ∧ (ds ++ rest).dropWhile Char.isDigit = rest := by
  induction ds with
  | nil =>
    simp only [List.nil_append]
    cases rest with
    | nil => exact ⟨rfl, rfl⟩
    | cons c t =>
      have hc := hrest c rfl
      simp [List.takeWhile_cons, List.dropWhile_cons, hc]
  | cons d ds ih =>
    have hd := hdig d (List.mem_cons_self _ _)
    have ih2 := ih (fun c hc => hdig c (List.mem_cons_of_mem _ hc))
    simp [List.takeWhile_cons, List.dropWhile_cons, hd, ih2.1, ih2.2]

/-- Claim C7 (amended): the BP/HR/Temp/SpO2 patterns are recognized
case-insensitively with an optional colon and optional whitespace, but
only Temp's capture group accepts a decimal part; BP, HR and SpO2 capture
one or more digits only, so a decimal value is cut at the dot (and a BP
reading with a decimal systolic does not match at all). The first conjunct
settles the HR capture for every digit run. -/
theorem C7_vitals_patterns (ds rest : List Char) (hne : ds ≠ [])
    (hdig : ∀ c ∈ ds, c.isDigit = true)
    (hrest : ∀ c, rest.head? = some c → c.isDigit = false) :
    (parse_vitals_from_text ⟨'H' :: 'R' :: ':' :: ' ' :: (ds ++ rest)⟩).heart_rate
      = some ((digitsToNat ds : ℚ))
    ∧ parse_vitals_from_text txtAllLower
      = ⟨some 150, some 95, some 110, some ((493 : ℚ)/5), some 97⟩
    ∧ (parse_vitals_from_text txtHR729).heart_rate = some 72
    ∧ (parse_vitals_from_text txtBPdot).systolic_bp = none
    ∧ (parse_vitals_from_text txtBPdot).diastolic_bp = none := by
  refine ⟨?_, ?_, ?_, ?_, ?_⟩
  · have hmk : matchKwNum ['H', 'R'] false ('H' :: 'R' :: ':' :: ' ' :: (ds ++ rest))
        = some ((digitsToNat ds : ℚ)) := by
      unfold matchKwNum
      have hlit : matchLit ['H', 'R'] ('H' :: 'R' :: ':' :: ' ' :: (ds ++ rest))
          = some (':' :: ' ' :: (ds ++ rest)) := by
        simp [matchLit]
      rw [hlit]
      have hskip : skipColonSpaces (':' :: ' ' :: (ds ++ rest)) = ds ++ rest := by
        unfold skipColonSpaces
        dsimp only
        cases ds with
        | nil => exact absurd rfl hne
        | cons d ds2 =>
          have hd : isSpaceC d = false :=
            digit_not_space (hdig d (List.mem_cons_self _ _))
          simp [List.dropWhile_cons, hd, show isSpaceC ' ' = true from rfl]
      dsimp only
      rw [hskip]
      unfold matchInt takeDigits
      obtain ⟨ht, hd2⟩ := takeWhile_digits hdig hrest
      rw [ht, hd2]
      cases ds with
      | nil => exact absurd rfl hne
      | cons d ds2 => simp
    unfold parse_vitals_from_text
    dsimp only
    conv_lhs => rw [searchAux]
    rw [hmk]
  · with_unfolding_all rfl
  · with_unfolding_all rfl
  · with_unfolding_all rfl
  · with_unfolding_all rfl

/-- Witness for C7 (amended) at the digit run 110 followed by a space. -/
theorem C7_vitals_patterns_witness :
    (parse_vitals_from_text ⟨'H' :: 'R' :: ':' :: ' ' ::
        (['1', '1', '0'] ++ [' ', 'x'])⟩).heart_rate
      = some ((digitsToNat ['1', '1', '0'] : ℚ)) :=
  (C7_vitals_patterns ['1', '1', '0'] [' ', 'x'] (by decide) (by decide) (by decide)).1

/-- Counterexample to C7 as stated: the HR and SpO2 captures do not
accept a decimal part — "HR: 72.9" parses to 72 and "SpO2: 97.5" to 97.
-/
theorem C7_decimal_counterexample :
    (parse_vitals_from_text txtHR729).heart_rate = some 72
    ∧ (parse_vitals_from_text txtHR729).heart_rate ≠ some 72.9
    ∧ (parse_vitals_from_text txtSpO2dot).spo2 = some 97
    ∧ (parse_vitals_from_text txtSpO2dot).spo2 ≠ some 97.5 := by
  have h1 : (parse_vitals_from_text txtHR729).heart_rate = some 72 := by decide
  have h2 : (parse_vitals_from_text txtSpO2dot).spo2 = some 97 := by decide
  refine ⟨h1, ?_, h2, ?_⟩
  · rw [h1]
    simp only [ne_eq, Option.some.injEq]
    norm_num
  · rw [h2]
    simp only [ne_eq, Option.some.injEq]
    norm_num

end ClinicalRules
